import Mathlib

/-!
Verification of the cosmic-position calculator core: a shallow embedding of
the reference-frame velocity model (`cosmic_calculator.py`), the space-time
displacement engine (`spacetime_position.py`), the coordinate validator
(`geocoding.py`), and the spacecraft-comparison calculator (`app.py`).
Python floats are modelled as real numbers; `numpy` 3-arrays as `Vec3`;
timezone-aware instants as real numbers of seconds on a common (UTC) scale.
-/

noncomputable section

namespace WhereAmI

/-- A 3-dimensional vector of real numbers, modelling a numpy 3-array
holding km/s (velocity) or km (displacement) components. -/
structure Vec3 where
  x : ℝ
  y : ℝ
  z : ℝ

/-- Element-wise vector addition (`numpy` `+`). -/
def Vec3.add (a b : Vec3) : Vec3 :=
  ⟨a.x + b.x, a.y + b.y, a.z + b.z⟩

/-- The zero vector (`np.zeros(3)`). -/
def Vec3.zero : Vec3 :=
  ⟨0, 0, 0⟩

/-- Scalar multiplication of a vector (`numpy` array times scalar). -/
def Vec3.smul (c : ℝ) (v : Vec3) : Vec3 :=
  ⟨c * v.x, c * v.y, c * v.z⟩

/-- Element-wise negation of a vector. -/
def Vec3.neg (v : Vec3) : Vec3 :=
  ⟨-v.x, -v.y, -v.z⟩

/-- Euclidean norm (`np.linalg.norm`). -/
def Vec3.norm (v : Vec3) : ℝ :=
  Real.sqrt (v.x ^ 2 + v.y ^ 2 + v.z ^ 2)

/-- Degrees to radians (`np.radians`). -/
def radians (degrees : ℝ) : ℝ :=
  degrees * Real.pi / 180

namespace CosmicMotionCalculator

/-- `EARTH_ROTATION_EQUATOR = 0.465` km/s at equator. -/
def EARTH_ROTATION_EQUATOR : ℝ := 0.465

/-- `EARTH_ORBITAL_VELOCITY = 29.78` km/s around Sun. -/
def EARTH_ORBITAL_VELOCITY : ℝ := 29.78

/-- `SOLAR_SYSTEM_LSR = 20.0` km/s peculiar motion relative to the LSR. -/
def SOLAR_SYSTEM_LSR : ℝ := 20.0

/-- `SUN_GALACTIC_ORBIT = 230.0` km/s around the Milky Way center. -/
def SUN_GALACTIC_ORBIT : ℝ := 230.0

/-- `GALACTIC_PLANE_OSCILLATION = 7.0` km/s perpendicular to the plane. -/
def GALACTIC_PLANE_OSCILLATION : ℝ := 7.0

/-- `MW_LOCAL_GROUP = 100.0` km/s, Milky Way motion in the Local Group. -/
def MW_LOCAL_GROUP : ℝ := 100.0

/-- `LOCAL_GROUP_VIRGO = 600.0` km/s toward the Virgo Cluster. -/
def LOCAL_GROUP_VIRGO : ℝ := 600.0

/-- `GREAT_ATTRACTOR = 600.0` km/s toward the Great Attractor. -/
def GREAT_ATTRACTOR : ℝ := 600.0

/-- `CMB_DIPOLE_VELOCITY = 369.0` km/s relative to the CMB rest frame. -/
def CMB_DIPOLE_VELOCITY : ℝ := 369.0

/-- `CMB_DIPOLE_RA = 167.99` degrees. -/
def CMB_DIPOLE_RA : ℝ := 167.99

/-- `CMB_DIPOLE_DEC = -6.98` degrees. -/
def CMB_DIPOLE_DEC : ℝ := -6.98

/-- `earth_rotation_velocity`: velocity from Earth's rotation at a location.
Magnitude `EARTH_ROTATION_EQUATOR * cos(radians latitude)`, pointed along
the local eastward tangent decomposed via the longitude. The `time`
argument is accepted, as in the source, and not used. -/
def earth_rotation_velocity (latitude longitude time : ℝ) : Vec3 :=
  let v_mag := EARTH_ROTATION_EQUATOR * Real.cos (radians latitude)
  let v_east := v_mag
  ⟨-v_east * Real.sin (radians longitude),
    v_east * Real.cos (radians longitude),
    0⟩

/-- `earth_orbital_velocity`: fixed-axis stand-in for Earth's orbital
velocity; the `time` argument is accepted and not used. -/
def earth_orbital_velocity (time : ℝ) : Vec3 :=
  ⟨0, EARTH_ORBITAL_VELOCITY, 0⟩

/-- `solar_system_velocity`: the Sun's motion through the Local Standard of
Rest, toward the solar apex at RA 270°, Dec 30°. -/
def solar_system_velocity : Vec3 :=
  let apex_ra : ℝ := 270.0
  let apex_dec : ℝ := 30.0
  Vec3.smul SOLAR_SYSTEM_LSR
    ⟨Real.cos (radians apex_dec) * Real.cos (radians apex_ra),
      Real.cos (radians apex_dec) * Real.sin (radians apex_ra),
      Real.sin (radians apex_dec)⟩

/-- `galactic_rotation_velocity`: fixed-axis stand-in for the Sun's orbit
around the Milky Way's center. -/
def galactic_rotation_velocity : Vec3 :=
  ⟨0, SUN_GALACTIC_ORBIT, 0⟩

/-- `galactic_plane_oscillation_velocity`: fixed-axis stand-in for the
Sun's oscillation through the galactic plane; `time` accepted and unused. -/
def galactic_plane_oscillation_velocity (time : ℝ) : Vec3 :=
  ⟨0, 0, GALACTIC_PLANE_OSCILLATION⟩

/-- `local_group_velocity`: Milky Way's motion in the Local Group, toward
M31 at RA 10.5°, Dec 41.27°. -/
def local_group_velocity : Vec3 :=
  let m31_ra : ℝ := 10.5
  let m31_dec : ℝ := 41.27
  Vec3.smul MW_LOCAL_GROUP
    ⟨Real.cos (radians m31_dec) * Real.cos (radians m31_ra),
      Real.cos (radians m31_dec) * Real.sin (radians m31_ra),
      Real.sin (radians m31_dec)⟩

/-- `virgo_cluster_velocity`: Local Group motion toward the Virgo Cluster
at RA 186.75°, Dec 12.72°. -/
def virgo_cluster_velocity : Vec3 :=
  let virgo_ra : ℝ := 186.75
  let virgo_dec : ℝ := 12.72
  Vec3.smul LOCAL_GROUP_VIRGO
    ⟨Real.cos (radians virgo_dec) * Real.cos (radians virgo_ra),
      Real.cos (radians virgo_dec) * Real.sin (radians virgo_ra),
      Real.sin (radians virgo_dec)⟩

/-- `great_attractor_velocity`: motion toward the Great Attractor at
RA 220°, Dec −45°. -/
def great_attractor_velocity : Vec3 :=
  let ga_ra : ℝ := 220.0
  let ga_dec : ℝ := -45.0
  Vec3.smul GREAT_ATTRACTOR
    ⟨Real.cos (radians ga_dec) * Real.cos (radians ga_ra),
      Real.cos (radians ga_dec) * Real.sin (radians ga_ra),
      Real.sin (radians ga_dec)⟩

/-- `cmb_rest_frame_velocity`: our velocity relative to the CMB rest frame,
along the CMB dipole direction. -/
def cmb_rest_frame_velocity : Vec3 :=
  let ra_rad := radians CMB_DIPOLE_RA
  let dec_rad := radians CMB_DIPOLE_DEC
  Vec3.smul CMB_DIPOLE_VELOCITY
    ⟨Real.cos dec_rad * Real.cos ra_rad,
      Real.cos dec_rad * Real.sin ra_rad,
      Real.sin dec_rad⟩

end CosmicMotionCalculator

/-- The dictionary returned by `calculate_total_velocity`: nine named
velocity vectors, their vector sum `total`, and its norm `total_magnitude`. -/
structure VelocityComposite where
  earth_rotation : Vec3
  earth_orbit : Vec3
  solar_system_lsr : Vec3
  galactic_rotation : Vec3
  galactic_oscillation : Vec3
  local_group : Vec3
  virgo_motion : Vec3
  great_attractor : Vec3
  cmb_frame : Vec3
  total : Vec3
  total_magnitude : ℝ

namespace CosmicMotionCalculator

/-- `calculate_total_velocity`: assemble the nine contributions at a
location and instant, then accumulate `total` by the source's loop
(`total = np.zeros(3); for v in velocities.values(): total += v`) and set
`total_magnitude = np.linalg.norm(total)`. -/
def calculate_total_velocity (latitude longitude time : ℝ) : VelocityComposite :=
  let er := earth_rotation_velocity latitude longitude time
  let eo := earth_orbital_velocity time
  let ss := solar_system_velocity
  let gr := galactic_rotation_velocity
  let go := galactic_plane_oscillation_velocity time
  let lg := local_group_velocity
  let vm := virgo_cluster_velocity
  let ga := great_attractor_velocity
  let cmb := cmb_rest_frame_velocity
  let total := [er, eo, ss, gr, go, lg, vm, ga, cmb].foldl Vec3.add Vec3.zero
  { earth_rotation := er
    earth_orbit := eo
    solar_system_lsr := ss
    galactic_rotation := gr
    galactic_oscillation := go
    local_group := lg
    virgo_motion := vm
    great_attractor := ga
    cmb_frame := cmb
    total := total
    total_magnitude := total.norm }

/-- `calculate_position_change`: position change = total velocity times the
time interval in seconds. -/
def calculate_position_change (velocities : VelocityComposite)
    (time_delta_seconds : ℝ) : Vec3 :=
  Vec3.smul time_delta_seconds velocities.total

end CosmicMotionCalculator

/-- A `(latitude, longitude, address_string)` location triple. -/
structure Location where
  latitude : ℝ
  longitude : ℝ
  address : String

/-- The result of `geocoding.LocationGeocoder.validate_coordinates`:
`False` when either coordinate is missing (`None`), when the latitude is
outside `[-90, 90]`, or when the longitude is outside `[-180, 180]`;
`True` otherwise. -/
def validate_coordinates (latitude longitude : Option ℝ) : Prop :=
  match latitude, longitude with
  | some lat, some lon =>
      (-90 ≤ lat ∧ lat ≤ 90) ∧ (-180 ≤ lon ∧ lon ≤ 180)
  | _, _ => False

/-- The state built by `SpaceTimePosition.__init__`. -/
structure SpaceTimePosition where
  birth_datetime : ℝ
  birth_latitude : ℝ
  birth_longitude : ℝ
  birth_address : String
  current_datetime : ℝ
  current_latitude : ℝ
  current_longitude : ℝ
  current_address : String
  age_seconds : ℝ
  age_years : ℝ

/-- `SpaceTimePosition.__init__`: `now` models `datetime.now(pytz.UTC)`,
the caller's present moment in UTC, substituted when `current_datetime`
is `None`; when `current_location` is `None` the birth latitude, longitude
and address are substituted field by field. `age_seconds` is the signed
difference of the two instants, `age_years` divides it by
`365.25 * 24 * 3600`. -/
def SpaceTimePosition.init (now : ℝ) (birth_datetime : ℝ)
    (birth_location : Location) (current_datetime : Option ℝ)
    (current_location : Option Location) : SpaceTimePosition :=
  let cd := match current_datetime with
    | none => now
    | some d => d
  let cl := match current_location with
    | none => birth_location
    | some l => l
  { birth_datetime := birth_datetime
    birth_latitude := birth_location.latitude
    birth_longitude := birth_location.longitude
    birth_address := birth_location.address
    current_datetime := cd
    current_latitude := cl.latitude
    current_longitude := cl.longitude
    current_address := cl.address
    age_seconds := cd - birth_datetime
    age_years := (cd - birth_datetime) / (365.25 * 24 * 3600) }

/-- The dictionary returned by `calculate_birth_position` and
`calculate_current_position`: an instant, a location, and the velocity
composite evaluated there. -/
structure PositionData where
  time : ℝ
  latitude : ℝ
  longitude : ℝ
  address : String
  velocities : VelocityComposite

/-- `calculate_birth_position`: the velocity composite at the birth
location and instant. -/
def SpaceTimePosition.calculate_birth_position (p : SpaceTimePosition) :
    PositionData :=
  { time := p.birth_datetime
    latitude := p.birth_latitude
    longitude := p.birth_longitude
    address := p.birth_address
    velocities := CosmicMotionCalculator.calculate_total_velocity
      p.birth_latitude p.birth_longitude p.birth_datetime }

/-- `calculate_current_position`: the velocity composite at the current
location and instant. -/
def SpaceTimePosition.calculate_current_position (p : SpaceTimePosition) :
    PositionData :=
  { time := p.current_datetime
    latitude := p.current_latitude
    longitude := p.current_longitude
    address := p.current_address
    velocities := CosmicMotionCalculator.calculate_total_velocity
      p.current_latitude p.current_longitude p.current_datetime }

/-- The dictionary returned by `calculate_displacement`. -/
structure DisplacementResult where
  displacement_vector_km : Vec3
  displacement_magnitude_km : ℝ
  displacement_magnitude_au : ℝ
  displacement_magnitude_ly : ℝ
  time_elapsed_seconds : ℝ
  time_elapsed_years : ℝ
  birth_data : PositionData
  current_data : PositionData

/-- `calculate_displacement`: evaluate the composite at birth and at
current, extrapolate `displacement = birth total velocity * age_seconds`,
and convert the magnitude to AU and light-years with the fixed divisors
`149597870.7` and `9.461e12`. -/
def SpaceTimePosition.calculate_displacement (p : SpaceTimePosition) :
    DisplacementResult :=
  let birth_data := p.calculate_birth_position
  let current_data := p.calculate_current_position
  let birth_velocities := birth_data.velocities
  let displacement := CosmicMotionCalculator.calculate_position_change
    birth_velocities p.age_seconds
  let displacement_magnitude_km := displacement.norm
  { displacement_vector_km := displacement
    displacement_magnitude_km := displacement_magnitude_km
    displacement_magnitude_au := displacement_magnitude_km / 149597870.7
    displacement_magnitude_ly := displacement_magnitude_km / 9.461e12
    time_elapsed_seconds := p.age_seconds
    time_elapsed_years := p.age_years
    birth_data := birth_data
    current_data := current_data }

/-- An entry of the fixed spacecraft catalog in
`app.generate_spacecraft_comparisons`. -/
structure Spacecraft where
  name : String
  speed_kms : ℝ
  speed_kmh : ℝ
  year : ℕ
  craft_record : String

/-- The fixed catalog of five spacecraft from
`app.generate_spacecraft_comparisons`, in source order. -/
def spacecraft_catalog : List Spacecraft :=
  [⟨"Parker Solar Probe", 163.0, 586800, 2021, "Fastest human-made object ever"⟩,
   ⟨"Juno", 73.61, 265000, 2016, "Fastest Jupiter mission"⟩,
   ⟨"Helios 2", 70.22, 252792, 1976, "Held speed record for 45 years"⟩,
   ⟨"Helios 1", 68.75, 247500, 1975, "First to exceed 240,000 km/h"⟩,
   ⟨"New Horizons", 58.54, 210744, 2015, "Fastest Earth departure velocity"⟩]

/-- One entry of the list returned by `generate_spacecraft_comparisons`. -/
structure SpacecraftComparison where
  name : String
  speed_kms : ℝ
  speed_kmh : ℝ
  year : ℕ
  craft_record : String
  travel_time_seconds : ℝ
  travel_time_days : ℝ
  travel_time_years : ℝ

/-- `generate_spacecraft_comparisons`: for each craft in the catalog,
`travel_time_seconds = distance_km / speed_kms`,
`travel_time_years = travel_time_seconds / (365.25 * 24 * 3600)`, and
`travel_time_days = travel_time_years * 365.25`. -/
def generate_spacecraft_comparisons (distance_km : ℝ) :
    List SpacecraftComparison :=
  spacecraft_catalog.map fun craft =>
    let travel_time_seconds := distance_km / craft.speed_kms
    let travel_time_years := travel_time_seconds / (365.25 * 24 * 3600)
    let travel_time_days := travel_time_years * 365.25
    { name := craft.name
      speed_kms := craft.speed_kms
      speed_kmh := craft.speed_kmh
      year := craft.year
      craft_record := craft.craft_record
      travel_time_seconds := travel_time_seconds
      travel_time_days := travel_time_days
      travel_time_years := travel_time_years }

/-- Claim C1: for every latitude, longitude and instant, the composite
returned by `calculate_total_velocity` has `total` equal to the element-wise
vector sum of its nine named component vectors and `total_magnitude` equal
to the Euclidean norm of that `total`. -/
theorem total_is_sum_of_nine_components (lat lon t : ℝ) :
    (CosmicMotionCalculator.calculate_total_velocity lat lon t).total =
      Vec3.add (Vec3.add (Vec3.add (Vec3.add (Vec3.add (Vec3.add (Vec3.add (Vec3.add
        (CosmicMotionCalculator.calculate_total_velocity lat lon t).earth_rotation
        (CosmicMotionCalculator.calculate_total_velocity lat lon t).earth_orbit)
        (CosmicMotionCalculator.calculate_total_velocity lat lon t).solar_system_lsr)
        (CosmicMotionCalculator.calculate_total_velocity lat lon t).galactic_rotation)
        (CosmicMotionCalculator.calculate_total_velocity lat lon t).galactic_oscillation)
        (CosmicMotionCalculator.calculate_total_velocity lat lon t).local_group)
        (CosmicMotionCalculator.calculate_total_velocity lat lon t).virgo_motion)
        (CosmicMotionCalculator.calculate_total_velocity lat lon t).great_attractor)
        (CosmicMotionCalculator.calculate_total_velocity lat lon t).cmb_frame ∧
    (CosmicMotionCalculator.calculate_total_velocity lat lon t).total_magnitude =
      Vec3.norm (CosmicMotionCalculator.calculate_total_velocity lat lon t).total := by
  constructor
  · simp only [CosmicMotionCalculator.calculate_total_velocity, List.foldl,
      Vec3.add, Vec3.zero, Vec3.mk.injEq]
    refine ⟨by ring, by ring, by ring⟩
  · rfl

/-- Claim C10: the output of `calculate_total_velocity` is independent of
the instant argument — the whole composite (all nine vectors, `total`, and
`total_magnitude`) is identical at any two instants, and each of the three
generators that accept a time argument ignores it. -/
theorem composite_independent_of_time (lat lon t1 t2 : ℝ) :
    CosmicMotionCalculator.calculate_total_velocity lat lon t1 =
      CosmicMotionCalculator.calculate_total_velocity lat lon t2 ∧
    CosmicMotionCalculator.earth_rotation_velocity lat lon t1 =
      CosmicMotionCalculator.earth_rotation_velocity lat lon t2 ∧
    CosmicMotionCalculator.earth_orbital_velocity t1 =
      CosmicMotionCalculator.earth_orbital_velocity t2 ∧
    CosmicMotionCalculator.galactic_plane_oscillation_velocity t1 =
      CosmicMotionCalculator.galactic_plane_oscillation_velocity t2 := by
  exact ⟨rfl, rfl, rfl, rfl⟩

/-- Claim C3: the Earth-rotation contribution is
`(-m * sin(longitude_rad), m * cos(longitude_rad), 0)` with
`m = 0.465 * cos(latitude_rad)`; every other contribution in the composite
is independent of both latitude and longitude, while the Earth-rotation
vector genuinely varies with latitude. -/
theorem earth_rotation_formula_and_only_location_dependence
    (lat lon lat2 lon2 t : ℝ) :
    (CosmicMotionCalculator.calculate_total_velocity lat lon t).earth_rotation =
      ⟨-(0.465 * Real.cos (radians lat)) * Real.sin (radians lon),
        0.465 * Real.cos (radians lat) * Real.cos (radians lon), 0⟩ ∧
    ((CosmicMotionCalculator.calculate_total_velocity lat lon t).earth_orbit =
       (CosmicMotionCalculator.calculate_total_velocity lat2 lon2 t).earth_orbit ∧
     (CosmicMotionCalculator.calculate_total_velocity lat lon t).solar_system_lsr =
       (CosmicMotionCalculator.calculate_total_velocity lat2 lon2 t).solar_system_lsr ∧
     (CosmicMotionCalculator.calculate_total_velocity lat lon t).galactic_rotation =
       (CosmicMotionCalculator.calculate_total_velocity lat2 lon2 t).galactic_rotation ∧
     (CosmicMotionCalculator.calculate_total_velocity lat lon t).galactic_oscillation =
       (CosmicMotionCalculator.calculate_total_velocity lat2 lon2 t).galactic_oscillation ∧
     (CosmicMotionCalculator.calculate_total_velocity lat lon t).local_group =
       (CosmicMotionCalculator.calculate_total_velocity lat2 lon2 t).local_group ∧
     (CosmicMotionCalculator.calculate_total_velocity lat lon t).virgo_motion =
       (CosmicMotionCalculator.calculate_total_velocity lat2 lon2 t).virgo_motion ∧
     (CosmicMotionCalculator.calculate_total_velocity lat lon t).great_attractor =
       (CosmicMotionCalculator.calculate_total_velocity lat2 lon2 t).great_attractor ∧
     (CosmicMotionCalculator.calculate_total_velocity lat lon t).cmb_frame =
       (CosmicMotionCalculator.calculate_total_velocity lat2 lon2 t).cmb_frame) ∧
    CosmicMotionCalculator.earth_rotation_velocity 0 0 t ≠
      CosmicMotionCalculator.earth_rotation_velocity 90 0 t := by
  refine ⟨rfl, ⟨rfl, rfl, rfl, rfl, rfl, rfl, rfl, rfl⟩, ?_⟩
  intro h
  have hy := congrArg Vec3.y h
  have h0 : radians 0 = 0 := by simp [radians]
  have h90 : radians 90 = Real.pi / 2 := by
    unfold radians
    ring
  simp only [CosmicMotionCalculator.earth_rotation_velocity,
    CosmicMotionCalculator.EARTH_ROTATION_EQUATOR, h0, h90,
    Real.cos_zero, Real.cos_pi_div_two] at hy
  norm_num at hy

/-- Claim C4: each of the eight non-rotation contributions is the constant
vector built from the spec's fixed speeds and directions — five via
`speed * (cos(dec) * cos(ra), cos(dec) * sin(ra), sin(dec))`, the remaining
three axis-aligned. -/
theorem fixed_contribution_vectors (lat lon t : ℝ) :
    (CosmicMotionCalculator.calculate_total_velocity lat lon t).solar_system_lsr =
      Vec3.smul 20.0
        ⟨Real.cos (radians 30.0) * Real.cos (radians 270.0),
          Real.cos (radians 30.0) * Real.sin (radians 270.0),
          Real.sin (radians 30.0)⟩ ∧
    (CosmicMotionCalculator.calculate_total_velocity lat lon t).local_group =
      Vec3.smul 100.0
        ⟨Real.cos (radians 41.27) * Real.cos (radians 10.5),
          Real.cos (radians 41.27) * Real.sin (radians 10.5),
          Real.sin (radians 41.27)⟩ ∧
    (CosmicMotionCalculator.calculate_total_velocity lat lon t).virgo_motion =
      Vec3.smul 600.0
        ⟨Real.cos (radians 12.72) * Real.cos (radians 186.75),
          Real.cos (radians 12.72) * Real.sin (radians 186.75),
          Real.sin (radians 12.72)⟩ ∧
    (CosmicMotionCalculator.calculate_total_velocity lat lon t).great_attractor =
      Vec3.smul 600.0
        ⟨Real.cos (radians (-45.0)) * Real.cos (radians 220.0),
          Real.cos (radians (-45.0)) * Real.sin (radians 220.0),
          Real.sin (radians (-45.0))⟩ ∧
    (CosmicMotionCalculator.calculate_total_velocity lat lon t).cmb_frame =
      Vec3.smul 369.0
        ⟨Real.cos (radians (-6.98)) * Real.cos (radians 167.99),
          Real.cos (radians (-6.98)) * Real.sin (radians 167.99),
          Real.sin (radians (-6.98))⟩ ∧
    (CosmicMotionCalculator.calculate_total_velocity lat lon t).earth_orbit =
      ⟨0, 29.78, 0⟩ ∧
    (CosmicMotionCalculator.calculate_total_velocity lat lon t).galactic_rotation =
      ⟨0, 230.0, 0⟩ ∧
    (CosmicMotionCalculator.calculate_total_velocity lat lon t).galactic_oscillation =
      ⟨0, 0, 7.0⟩ :=
  ⟨rfl, rfl, rfl, rfl, rfl, rfl, rfl, rfl⟩

/-- Claim C2: the displacement vector equals the birth composite's `total`
scaled by `elapsed_seconds` (current instant minus birth instant); the
current event's composite is computed and included in the result, and
changing the current location leaves the displacement vector unchanged. -/
theorem displacement_from_birth_velocity_only (now bdt : ℝ) (bloc : Location)
    (cdt : Option ℝ) (cloc cloc2 : Option Location) :
    (SpaceTimePosition.init now bdt bloc cdt cloc).calculate_displacement.displacement_vector_km =
      Vec3.smul
        ((SpaceTimePosition.init now bdt bloc cdt cloc).current_datetime - bdt)
        (CosmicMotionCalculator.calculate_total_velocity
          bloc.latitude bloc.longitude bdt).total ∧
    (SpaceTimePosition.init now bdt bloc cdt cloc).calculate_displacement.current_data.velocities =
      CosmicMotionCalculator.calculate_total_velocity
        (SpaceTimePosition.init now bdt bloc cdt cloc).current_latitude
        (SpaceTimePosition.init now bdt bloc cdt cloc).current_longitude
        (SpaceTimePosition.init now bdt bloc cdt cloc).current_datetime ∧
    (SpaceTimePosition.init now bdt bloc cdt cloc2).calculate_displacement.displacement_vector_km =
      (SpaceTimePosition.init now bdt bloc cdt cloc).calculate_displacement.displacement_vector_km :=
  ⟨rfl, rfl, rfl⟩

/-- Claim C6: with equal instants the elapsed time is `0` and the
displacement vector is `(0, 0, 0)` whatever the locations; with the current
instant before the birth instant the elapsed time is negative and the
displacement vector is the exact negation of the one obtained from the same
events with the interval's absolute value. -/
theorem zero_and_negative_interval (now bdt cdt : ℝ) (bloc : Location)
    (cloc : Option Location) :
    ((SpaceTimePosition.init now bdt bloc (some bdt) cloc).calculate_displacement.time_elapsed_seconds = 0 ∧
     (SpaceTimePosition.init now bdt bloc (some bdt) cloc).calculate_displacement.displacement_vector_km =
       ⟨0, 0, 0⟩) ∧
    (cdt < bdt →
      (SpaceTimePosition.init now bdt bloc (some cdt) cloc).calculate_displacement.time_elapsed_seconds < 0 ∧
      (SpaceTimePosition.init now bdt bloc (some cdt) cloc).calculate_displacement.displacement_vector_km =
        Vec3.neg ((SpaceTimePosition.init now bdt bloc
          (some (bdt + (bdt - cdt))) cloc).calculate_displacement.displacement_vector_km)) := by
  refine ⟨⟨?_, ?_⟩, fun h => ⟨?_, ?_⟩⟩
  · show bdt - bdt = 0
    ring
  · show Vec3.smul (bdt - bdt)
      (CosmicMotionCalculator.calculate_total_velocity
        bloc.latitude bloc.longitude bdt).total = ⟨0, 0, 0⟩
    simp only [Vec3.smul, Vec3.mk.injEq]
    refine ⟨by ring, by ring, by ring⟩
  · show cdt - bdt < 0
    exact sub_neg.mpr h
  · show Vec3.smul (cdt - bdt)
      (CosmicMotionCalculator.calculate_total_velocity
        bloc.latitude bloc.longitude bdt).total =
      Vec3.neg (Vec3.smul (bdt + (bdt - cdt) - bdt)
        (CosmicMotionCalculator.calculate_total_velocity
          bloc.latitude bloc.longitude bdt).total)
    simp only [Vec3.smul, Vec3.neg, Vec3.mk.injEq]
    refine ⟨by ring, by ring, by ring⟩

/-- Witness for claim C6 at concrete inputs: birth instant `10`, current
instant `10` for the equal case and `3` for the reversed case. -/
theorem zero_and_negative_interval_witness :
    ((SpaceTimePosition.init 0 10 ⟨1, 2, "b"⟩ (some 10) none).calculate_displacement.time_elapsed_seconds = 0 ∧
     (SpaceTimePosition.init 0 10 ⟨1, 2, "b"⟩ (some 10) none).calculate_displacement.displacement_vector_km =
       ⟨0, 0, 0⟩) ∧
    ((SpaceTimePosition.init 0 10 ⟨1, 2, "b"⟩ (some 3) none).calculate_displacement.time_elapsed_seconds < 0 ∧
     (SpaceTimePosition.init 0 10 ⟨1, 2, "b"⟩ (some 3) none).calculate_displacement.displacement_vector_km =
       Vec3.neg ((SpaceTimePosition.init 0 10 ⟨1, 2, "b"⟩
         (some (10 + (10 - 3))) none).calculate_displacement.displacement_vector_km)) :=
  ⟨(zero_and_negative_interval 0 10 3 ⟨1, 2, "b"⟩ none).1,
   (zero_and_negative_interval 0 10 3 ⟨1, 2, "b"⟩ none).2 (by norm_num)⟩

/-- Claim C7: in every displacement result, `magnitude_au` is
`magnitude_km / 149597870.7` and `magnitude_ly` is
`magnitude_km / 9.461e12`, and each conversion multiplies back exactly to
`magnitude_km` over the reals. -/
theorem unit_conversions_round_trip (p : SpaceTimePosition) :
    p.calculate_displacement.displacement_magnitude_au =
      p.calculate_displacement.displacement_magnitude_km / 149597870.7 ∧
    p.calculate_displacement.displacement_magnitude_ly =
      p.calculate_displacement.displacement_magnitude_km / 9.461e12 ∧
    p.calculate_displacement.displacement_magnitude_au * 149597870.7 =
      p.calculate_displacement.displacement_magnitude_km ∧
    p.calculate_displacement.displacement_magnitude_ly * 9.461e12 =
      p.calculate_displacement.displacement_magnitude_km := by
  refine ⟨rfl, rfl, ?_, ?_⟩
  · show p.calculate_displacement.displacement_magnitude_km / 149597870.7 *
      149597870.7 = p.calculate_displacement.displacement_magnitude_km
    exact div_mul_cancel₀ _ (by norm_num)
  · show p.calculate_displacement.displacement_magnitude_km / 9.461e12 *
      9.461e12 = p.calculate_displacement.displacement_magnitude_km
    exact div_mul_cancel₀ _ (by norm_num)

/-- Claim C8: an omitted current location is replaced field by field with
the birth latitude, longitude and label, and an omitted current instant is
replaced by `now`, the caller's present moment in UTC
(`datetime.now(pytz.UTC)`). -/
theorem default_substitution (now bdt : ℝ) (bloc : Location)
    (cdt : Option ℝ) (cloc : Option Location) :
    ((SpaceTimePosition.init now bdt bloc cdt none).current_latitude =
       bloc.latitude ∧
     (SpaceTimePosition.init now bdt bloc cdt none).current_longitude =
       bloc.longitude ∧
     (SpaceTimePosition.init now bdt bloc cdt none).current_address =
       bloc.address) ∧
    (SpaceTimePosition.init now bdt bloc none cloc).current_datetime = now :=
  ⟨⟨rfl, rfl, rfl⟩, rfl⟩

/-- Counterexample to claim C5: `validate_coordinates` rejects latitude
`100`, yet `calculate_displacement` on a birth event at latitude `100`
still produces a full result with `time_elapsed_seconds = 5` and the usual
displacement formula — no `InvalidLocation` failure occurs anywhere in the
displacement path. -/
theorem invalid_latitude_still_produces_result :
    ¬ validate_coordinates (some 100) (some 0) ∧
    (SpaceTimePosition.init 0 0 ⟨100, 0, "nowhere"⟩ (some 5) none).calculate_displacement.time_elapsed_seconds = 5 ∧
    (SpaceTimePosition.init 0 0 ⟨100, 0, "nowhere"⟩ (some 5) none).calculate_displacement.displacement_vector_km =
      Vec3.smul 5 (CosmicMotionCalculator.calculate_total_velocity 100 0 0).total := by
  refine ⟨?_, ?_, ?_⟩
  · simp only [validate_coordinates]
    norm_num
  · show (5:ℝ) - 0 = 5
    norm_num
  · show Vec3.smul ((5:ℝ) - 0)
      (CosmicMotionCalculator.calculate_total_velocity 100 0 0).total =
      Vec3.smul 5 (CosmicMotionCalculator.calculate_total_velocity 100 0 0).total
    simp only [Vec3.smul, Vec3.mk.injEq]
    refine ⟨by ring, by ring, by ring⟩

/-- Claim C5 amended: `validate_coordinates` holds exactly when the
latitude lies in `[-90, 90]` and the longitude in `[-180, 180]`, but the
displacement path never invokes it: for every latitude and longitude,
in range or not, `calculate_displacement` produces a result by the usual
formula. -/
theorem validation_exists_but_is_never_invoked (lat lon now bdt : ℝ)
    (addr : String) (cdt : Option ℝ) (cloc : Option Location) :
    (validate_coordinates (some lat) (some lon) ↔
      ((-90 ≤ lat ∧ lat ≤ 90) ∧ (-180 ≤ lon ∧ lon ≤ 180))) ∧
    (SpaceTimePosition.init now bdt ⟨lat, lon, addr⟩ cdt cloc).calculate_displacement.displacement_vector_km =
      Vec3.smul
        ((SpaceTimePosition.init now bdt ⟨lat, lon, addr⟩ cdt cloc).current_datetime - bdt)
        (CosmicMotionCalculator.calculate_total_velocity lat lon bdt).total :=
  ⟨Iff.rfl, rfl⟩

/-- Claim C9: the comparison calculator returns one entry per spacecraft of
the fixed five-craft catalog, with the catalog's cruise speeds, and every
entry satisfies `travel_time_seconds = distance_km / speed_kms` and
`travel_time_years = travel_time_seconds / (365.25 * 24 * 3600)`. -/
theorem spacecraft_comparison_formulas (distance_km : ℝ) :
    (generate_spacecraft_comparisons distance_km).length = 5 ∧
    (generate_spacecraft_comparisons distance_km).map
      (fun c => c.speed_kms) = [163.0, 73.61, 70.22, 68.75, 58.54] ∧
    List.Forall (fun c =>
        c.travel_time_seconds = distance_km / c.speed_kms ∧
        c.travel_time_years =
          c.travel_time_seconds / (365.25 * 24 * 3600))
      (generate_spacecraft_comparisons distance_km) := by
  refine ⟨rfl, rfl, ?_⟩
  simp [generate_spacecraft_comparisons, spacecraft_catalog, List.Forall]

end WhereAmI
